import Mathlib

/-!
Verification development for the WebSerial serialport bindings
(`src/index.ts` of serialport-bindings-webserial).

The TypeScript source is shallowly embedded below:

* the port identity resolver (`getPortInfo`, lines 258-297) and the registry
  (`WebSerialBinding.open` / `WebSerialBinding.list`, lines 299-355) become
  pure Lean functions over descriptor lists and association lists;
* the stream session (`WebSerialPortBinding`, lines 36-256) becomes explicit
  state passing over a `SessionState` / `PortState` pair, with transport
  failures injected through an `Env` of `Except` results and transport calls
  recorded in an effect trace;
* the single-slot promise lock (lines 238-255) additionally gets a
  small-step interleaving model whose atomic steps are the scheduler gaps of
  the JavaScript microtask queue, so cross-task properties of `lock()` can be
  examined.

Byte buffers are `List Nat`; machine strings are Lean `String`s.
-/

/-! ## Port identity resolver (`getPortInfo`, src/index.ts lines 258-297) -/

/-- A platform device descriptor: the key/value attributes returned by
`port.getInfo()`, in the platform's reported (insertion) order.  A `none`
value models a `null`/`undefined` attribute (skipped by the `!= null` check
at line 284); attribute values are modelled as strings. -/
structure DeviceDescriptor where
  attrs : List (String × Option String)
deriving DecidableEq, Repr

/-- Attribute access `webInfo[k]` (first binding wins, as in a JS object
whose keys are unique). -/
def descAttr (d : DeviceDescriptor) (k : String) : Option String :=
  match d.attrs.find? (fun p => p.1 = k) with
  | some p => p.2
  | none => none

/-- JavaScript truthiness of an attribute value (`webInfo.usbVendorId`,
line 273): absent and empty-string values are falsy. -/
def jsTruthy : Option String → Bool
  | none => false
  | some s => !(s = "")

/-- `url.searchParams.set(k, v)`: replace the value of the first binding of
`k` (deleting any further bindings), otherwise append `(k, v)`. -/
def setParam : List (String × String) → String → String → List (String × String)
  | [], k, v => [(k, v)]
  | (k2, v2) :: rest, k, v =>
    if k2 = k then (k, v) :: rest.filter (fun p => !(p.1 = k))
    else (k2, v2) :: setParam rest k v

/-- Serialisation of the search parameters (`k=v` joined by `&`). -/
def paramsToString (ps : List (String × String)) : String :=
  String.intercalate "&" (ps.map (fun p => p.1 ++ "=" ++ p.2))

/-- `url.toString()`: the base, followed by `?` and the parameters when any
parameter is present. -/
def urlToString (base : String) (ps : List (String × String)) : String :=
  match ps with
  | [] => base
  | _ => base ++ "?" ++ paramsToString ps

/-- Category selection of lines 273-281: USB when `usbVendorId` is truthy,
else bluetooth when `bluetoothServiceClassId` is truthy, else the generic
port category. -/
def descBase (d : DeviceDescriptor) : String :=
  if jsTruthy (descAttr d "usbVendorId") then "webserial://usb"
  else if jsTruthy (descAttr d "bluetoothServiceClassId") then "webserial://bluetooth"
  else "webserial://port"

/-- The `for (const k in webInfo)` loop of lines 283-286: every non-null
attribute is written into the search parameters in report order. -/
def descParams (d : DeviceDescriptor) : List (String × String) :=
  d.attrs.foldl
    (fun ps kv =>
      match kv.2 with
      | some v => setParam ps kv.1 v
      | none => ps)
    []

/-- `const key = url.toString()` (line 288): the ordinal-free counter key. -/
def descKey (d : DeviceDescriptor) : String :=
  urlToString (descBase d) (descParams d)

/-- `counters[key] || 0` (line 289).  The counters table is an association
list; a missing key reads as 0 (and a stored 0 is also falsy in JS, which
coincides with the same result). -/
def lookupCounter : List (String × Nat) → String → Nat
  | [], _ => 0
  | (k2, v) :: rest, k => if k2 = k then v else lookupCounter rest k

/-- `counters[key] = v` (line 294): replace the first binding or append. -/
def setCounter : List (String × Nat) → String → Nat → List (String × Nat)
  | [], k, v => [(k, v)]
  | (k2, v2) :: rest, k, v =>
    if k2 = k then (k, v) :: rest else (k2, v2) :: setCounter rest k v

/-- One entry of the `list()` result.  `path` is the VirtualPath string of
line 292.  `ordinal` and `key` are ghost fields recording the assigned `n`
and the counter key of the computation (the source only externalises
`path`); the USB vendor/product attributes copied at lines 275-276 are kept
as well. -/
structure PortEntry where
  path : String
  ordinal : Nat
  key : String
  vendorId : Option String
  productId : Option String
deriving DecidableEq, Repr

/-- The VirtualPath built at lines 291-292 for a descriptor and an assigned
ordinal: the ordinal-free parameters with `n` set to the ordinal. -/
def mkPath (d : DeviceDescriptor) (n : Nat) : String :=
  urlToString (descBase d) (setParam (descParams d) "n" (toString n))

/-- The entry `getPortInfo` produces for descriptor `d` and ordinal `n`. -/
def mkEntry (d : DeviceDescriptor) (n : Nat) : PortEntry :=
  { path := mkPath d n
    ordinal := n
    key := descKey d
    vendorId := if jsTruthy (descAttr d "usbVendorId") then descAttr d "usbVendorId" else none
    productId := if jsTruthy (descAttr d "usbVendorId") then descAttr d "usbProductId" else none }

/-- `getPortInfo(counters, port)` (lines 258-297): look the counter up by
the ordinal-free key, assign it as `n`, store the incremented counter. -/
def getPortInfo (cs : List (String × Nat)) (d : DeviceDescriptor) :
    PortEntry × List (String × Nat) :=
  let key := descKey d
  let portId := lookupCounter cs key
  (mkEntry d portId, setCounter cs key (portId + 1))

/-- The enumeration loop of `list()` (lines 350-352), threading the
counters table through `getPortInfo`. -/
def runList : List (String × Nat) → List DeviceDescriptor → List PortEntry × List (String × Nat)
  | cs, [] => ([], cs)
  | cs, d :: r =>
    let step := getPortInfo cs d
    let rest := runList step.2 r
    (step.1 :: rest.1, rest.2)

/-- `WebSerialBinding.list()` with the capability present: a fresh counters
table per invocation (line 347). -/
def listPorts (report : List DeviceDescriptor) : List PortEntry :=
  (runList [] report).1

/-- Number of descriptors in `r` whose ordinal-free key is `k`. -/
def countKey (r : List DeviceDescriptor) (k : String) : Nat :=
  (r.filter (fun d => descKey d = k)).length

/-! ## Registry: option defaulting and `open` / `list`
(`WebSerialBinding`, src/index.ts lines 299-355) -/

/-- Caller-supplied open options (`WebSerialOpenOptions`).  Every optional
field is an `Option`; `baudRate` is also an `Option` because at runtime a
JavaScript caller may omit it even though the TypeScript type requires it.
The `webSerialPort` field carries the index of an explicitly supplied
native port; the two passthrough option bags are string association
lists. -/
structure WebSerialOpenOptionsM where
  path : String
  baudRate : Option Nat
  dataBits : Option Nat
  lock : Option Bool
  stopBits : Option Nat
  parity : Option String
  rtscts : Option Bool
  xon : Option Bool
  xoff : Option Bool
  xany : Option Bool
  hupcl : Option Bool
  webSerialOpenOptions : Option (List (String × String))
  webSerialRequestOptions : Option (List (String × String))
  webSerialPort : Option Nat
deriving DecidableEq, Repr

/-- The effective (merged) options of `WebSerialBinding.open`. -/
structure MergedOpenOptionsM where
  path : String
  baudRate : Option Nat
  dataBits : Nat
  lock : Bool
  stopBits : Nat
  parity : String
  rtscts : Bool
  xon : Bool
  xoff : Bool
  xany : Bool
  hupcl : Bool
  webSerialOpenOptions : List (String × String)
  webSerialRequestOptions : List (String × String)
  webSerialPort : Option Nat
deriving DecidableEq, Repr

/-- The spread `{ dataBits: 8, lock: true, ..., ...options }` of lines
303-317: for every field appearing in the defaults object the caller value
wins when supplied, otherwise the default applies; `path` and `baudRate`
have no entry in the defaults object and are taken from the caller
unchanged. -/
def mergeOpenOptions (o : WebSerialOpenOptionsM) : MergedOpenOptionsM :=
  { path := o.path
    baudRate := o.baudRate
    dataBits := o.dataBits.getD 8
    lock := o.lock.getD true
    stopBits := o.stopBits.getD 1
    parity := o.parity.getD "none"
    rtscts := o.rtscts.getD false
    xon := o.xon.getD false
    xoff := o.xoff.getD false
    xany := o.xany.getD false
    hupcl := o.hupcl.getD true
    webSerialOpenOptions := o.webSerialOpenOptions.getD []
    webSerialRequestOptions := o.webSerialRequestOptions.getD []
    webSerialPort := o.webSerialPort }

/-- Options with only a path: every defaultable field and the baud rate are
left to the merge. -/
def bareOptions (path : String) : WebSerialOpenOptionsM :=
  { path := path
    baudRate := none
    dataBits := none
    lock := none
    stopBits := none
    parity := none
    rtscts := none
    xon := none
    xoff := none
    xany := none
    hupcl := none
    webSerialOpenOptions := none
    webSerialRequestOptions := none
    webSerialPort := none }

/-- Failures of `WebSerialBinding.open`: the missing-capability throw of
line 320 and the unmatched-path throw of line 340. -/
inductive OpenError
  | notSupported
  | invalidPath (path : String)
deriving DecidableEq, Repr

/-- How `open` resolved the native port: the caller's explicit port
(line 324), the permission prompt (line 326), or the device at the given
index of the `list()` result whose path matched (lines 330-336). -/
inductive SelectedPort
  | explicitPort (idx : Nat)
  | requestedPort
  | listedPort (idx : Nat)
deriving DecidableEq, Repr

/-- `WebSerialBinding.list()` (lines 346-355): empty without the
capability, otherwise one entry per reported device with a fresh counters
table. -/
def webSerialList (hasSerial : Bool) (report : List DeviceDescriptor) : List PortEntry :=
  if hasSerial then listPorts report else []

/-- `WebSerialBinding.open(options)` (lines 300-344) up to the construction
of the binding: merge the options, fail when the capability is absent,
resolve the native port by sentinel path / explicit port / path lookup in
`list()`.  The subsequent `binding.open()` transport call is the session
model's concern. -/
def webSerialOpen (hasSerial : Bool) (o : WebSerialOpenOptionsM)
    (report : List DeviceDescriptor) :
    Except OpenError (SelectedPort × MergedOpenOptionsM) :=
  let oo := mergeOpenOptions o
  if hasSerial = false then .error .notSupported
  else if oo.path = "webserial://any" then
    match oo.webSerialPort with
    | some idx => .ok (.explicitPort idx, oo)
    | none => .ok (.requestedPort, oo)
  else
    match (webSerialList hasSerial report).findIdx? (fun e => e.path = oo.path) with
    | some i => .ok (.listedPort i, oo)
    | none => .error (.invalidPath oo.path)

/-! ## Stream session state and the reconfiguration protocol
(`WebSerialPortBinding`, src/index.ts lines 36-256) -/

/-- The output signal record built by `set()` (lines 214-218). -/
structure SignalsM where
  dataTerminalReady : Option Bool
  requestToSend : Option Bool
  breakSignal : Option Bool
deriving DecidableEq, Repr

/-- The mutable fields of `WebSerialPortBinding` that the session
operations touch.  `baudRate` is `this.openOptions.baudRate` (an `Option`
because the merge applies no baud default); `hasReader` / `hasWriter` model
the presence of `this.reader` / `this.writer`; `lastWriteCall` the presence
of the recorded write completion; `locked` whether the single lock slot is
occupied. -/
structure SessionState where
  isOpen : Bool
  baudRate : Option Nat
  updatingPortSettings : Bool
  lastSignalsValues : Option SignalsM
  internalBuffer : List Nat
  hasReader : Bool
  hasWriter : Bool
  lastWriteCall : Bool
  locked : Bool
deriving DecidableEq, Repr

/-- The underlying native `SerialPort`: whether it is open, its recorded
output signals (`none` after a fresh transport open — the device forgets
output signal state across a reopen), and whether it exposes readable /
writable streams (lines 85-88). -/
structure PortState where
  portOpen : Bool
  outputSignals : Option SignalsM
  hasReadable : Bool
  hasWritable : Bool
deriving DecidableEq, Repr

/-- Transport calls issued by the session, recorded in order. -/
inductive Effect
  | readerCancel
  | readerRelease
  | writerClose
  | writerRelease
  | portClose
  | portOpenCall (baud : Option Nat)
  | setSignalsCall (s : SignalsM)
deriving DecidableEq, Repr

/-- Failure injection for the fallible transport steps.  `reader.cancel()`,
`writer.close()` and `port.close()` have their errors swallowed by the
source (lines 93, 99, 106), so they carry no injection; `releaseLock()`
(lines 94, 100), `port.open()` (line 76) and `port.setSignals()` (lines
124, 220) can throw to the session. -/
structure Env where
  readerRelease : Except String Unit
  writerRelease : Except String Unit
  portOpenResult : Except String Unit
  setSignalsResult : Except String Unit
deriving Repr

/-- Result of one session operation: the value or error, the session and
port states after it, and the transport effects it issued. -/
structure StepResult where
  result : Except String Unit
  session : SessionState
  port : PortState
  trace : List Effect
deriving Repr

/-- Final phase of `_close()` (lines 104-106): drop the recorded write
completion, close the transport swallowing errors. -/
def closeFinishPhase (st : SessionState) (port : PortState) (tr : List Effect) : StepResult :=
  { result := .ok ()
    session := { st with lastWriteCall := false }
    port := { port with portOpen := false }
    trace := tr ++ [.portClose] }

/-- Writer phase of `_close()` (lines 98-102): when a writer is held, close
it (errors swallowed), release its stream lock (which may throw, leaving
the writer in place), then drop it. -/
def closeWriterPhase (env : Env) (st : SessionState) (port : PortState)
    (tr : List Effect) : StepResult :=
  if st.hasWriter then
    match env.writerRelease with
    | .error e => { result := .error e, session := st, port := port, trace := tr ++ [.writerClose] }
    | .ok _ =>
      closeFinishPhase { st with hasWriter := false } port (tr ++ [.writerClose, .writerRelease])
  else closeFinishPhase st port tr

/-- `_close()` (lines 91-107): reader phase (cancel with swallowed errors,
release the stream lock which may throw, drop the reader), then the writer
phase and the transport close. -/
def closeTransport (env : Env) (st : SessionState) (port : PortState) : StepResult :=
  if st.hasReader then
    match env.readerRelease with
    | .error e => { result := .error e, session := st, port := port, trace := [.readerCancel] }
    | .ok _ =>
      closeWriterPhase env { st with hasReader := false } port [.readerCancel, .readerRelease]
  else closeWriterPhase env st port []

/-- `_open()` (lines 75-89): open the transport with the session's current
options (which may throw), then take reader / writer handles when the port
exposes the corresponding streams.  A fresh transport open resets the
device's output signal state. -/
def openTransport (env : Env) (st : SessionState) (port : PortState) : StepResult :=
  match env.portOpenResult with
  | .error e =>
    { result := .error e, session := st, port := port, trace := [.portOpenCall st.baudRate] }
  | .ok _ =>
    { result := .ok ()
      session := { st with hasReader := port.hasReadable, hasWriter := port.hasWritable }
      port := { port with portOpen := true, outputSignals := none }
      trace := [.portOpenCall st.baudRate] }

/-- `port.setSignals(v)` (lines 124, 220): may throw; on success the
transport records the output signals. -/
def setSignalsTransport (env : Env) (st : SessionState) (port : PortState)
    (v : SignalsM) : StepResult :=
  match env.setSignalsResult with
  | .error e => { result := .error e, session := st, port := port, trace := [.setSignalsCall v] }
  | .ok _ =>
    { result := .ok ()
      session := st
      port := { port with outputSignals := some v }
      trace := [.setSignalsCall v] }

/-- `update(options)` (lines 113-134), sequentially: acquire the lock slot,
and when the requested baud rate differs from the current effective value,
store the new rate, raise the `updatingPortSettings` flag, run the
transport teardown and setup and — when signals were previously set —
reapply the last-set values; the flag is cleared on success inside the try
and in the catch before the error is re-raised.  `unlock()` runs only on
the success path (line 133). -/
def update (env : Env) (st0 : SessionState) (port0 : PortState) (newBaud : Nat) : StepResult :=
  let st := { st0 with locked := true }
  if some newBaud ≠ st.baudRate then
    let st1 := { st with baudRate := some newBaud, updatingPortSettings := true }
    let c := closeTransport env st1 port0
    match c.result with
    | .error e =>
      { result := .error e
        session := { c.session with updatingPortSettings := false }
        port := c.port
        trace := c.trace }
    | .ok _ =>
      let o := openTransport env c.session c.port
      match o.result with
      | .error e =>
        { result := .error e
          session := { o.session with updatingPortSettings := false }
          port := o.port
          trace := c.trace ++ o.trace }
      | .ok _ =>
        match o.session.lastSignalsValues with
        | some v =>
          let s := setSignalsTransport env o.session o.port v
          match s.result with
          | .error e =>
            { result := .error e
              session := { s.session with updatingPortSettings := false }
              port := s.port
              trace := c.trace ++ o.trace ++ s.trace }
          | .ok _ =>
            { result := .ok ()
              session := { s.session with updatingPortSettings := false, locked := false }
              port := s.port
              trace := c.trace ++ o.trace ++ s.trace }
        | none =>
          { result := .ok ()
            session := { o.session with updatingPortSettings := false, locked := false }
            port := o.port
            trace := c.trace ++ o.trace }
  else
    { result := .ok (), session := { st with locked := false }, port := port0, trace := [] }

/-- The error carried by an `Except` result, when any. -/
def errOf : Except String Unit → Option String
  | .error e => some e
  | .ok _ => none

/-- The first error raised by the transport teardown / setup steps of an
`update` that reconfigures, in program order: the reader release, the
writer release, then the transport open (reapplying signals is a separate,
later step). -/
def firstTeardownSetupError (env : Env) (hasReader hasWriter : Bool) : Option String :=
  if hasReader then
    match env.readerRelease with
    | .error e => some e
    | .ok _ =>
      if hasWriter then
        match env.writerRelease with
        | .error e => some e
        | .ok _ => errOf env.portOpenResult
      else errOf env.portOpenResult
  else if hasWriter then
    match env.writerRelease with
    | .error e => some e
    | .ok _ => errOf env.portOpenResult
  else errOf env.portOpenResult

/-- `set(options)` (lines 211-221): record the requested output signals as
`lastSignalsValues`, then apply them to the transport (the record is kept
even when the transport call throws, because the field is assigned before
the await). -/
def setOp (env : Env) (st : SessionState) (port : PortState)
    (dtr rts brk : Option Bool) : StepResult :=
  let v : SignalsM := { dataTerminalReady := dtr, requestToSend := rts, breakSignal := brk }
  let st1 := { st with lastSignalsValues := some v }
  let s := setSignalsTransport env st1 port v
  { result := s.result, session := st1, port := s.port, trace := s.trace }

/-! ## Read path (`read`, src/index.ts lines 141-192) -/

/-- `buffer.set(src, offset)` on a byte buffer modelled as a list: the
bytes of `src` overwrite the region starting at `offset`. -/
def bufSet (dest src : List Nat) (offset : Nat) : List Nat :=
  dest.take offset ++ src ++ dest.drop (offset + src.length)

/-- One resolution of `this.reader.read()`: a data chunk, a done
notification, or a rejection. -/
inductive ReadEvent
  | chunk (data : List Nat)
  | done
  | readErr (msg : String)
deriving DecidableEq, Repr

/-- What a `read` call returns together with the session pieces it leaves
behind: the reported byte count, the destination buffer, the internal
buffer, and the transport events not yet consumed. -/
structure ReadReturn where
  bytesRead : Nat
  dest : List Nat
  internalBuffer : List Nat
  events : List ReadEvent
deriving DecidableEq, Repr

/-- `read(buffer, offset, length)` (lines 141-192).  The internal buffer is
drained first (oldest first, up to `length`, lines 144-157) with an early
return when the request is fully served from it; otherwise one transport
read is consumed from `events` (an exhausted `events` list keeps resolving
as done).  A rejection is re-raised unless `updatingPortSettings` is set
(lines 162-167); a done result during reconfiguration retries the whole
call with the advanced offset and remaining length (lines 169-173); a chunk
larger than the remaining request fills exactly the request and appends the
excess to the internal buffer's tail (lines 175-187); a smaller chunk is
returned whole (lines 188-191).  `fuel` bounds the retry recursion. -/
def readCore : Nat → Bool → List Nat → List ReadEvent → List Nat → Nat → Nat →
    Except String ReadReturn
  | 0, _, _, _, _, _, _ => .error "out-of-fuel"
  | fuel + 1, updating, ib, events, dest, offset, length =>
    let availFromBuffer := min length ib.length
    let dest1 := if 0 < ib.length then bufSet dest (ib.take availFromBuffer) offset else dest
    let offset1 := if 0 < ib.length then offset + availFromBuffer else offset
    let length1 := if 0 < ib.length then length - availFromBuffer else length
    let fromIB := if 0 < ib.length then availFromBuffer else 0
    let ib1 := if 0 < ib.length then ib.drop availFromBuffer else ib
    if 0 < ib.length ∧ length1 = 0 then
      .ok { bytesRead := fromIB, dest := dest1, internalBuffer := ib1, events := events }
    else
      match events with
      | [] =>
        if updating then readCore fuel updating ib1 [] dest1 offset1 length1
        else .ok { bytesRead := fromIB, dest := dest1, internalBuffer := ib1, events := [] }
      | ev :: rest =>
        match ev with
        | .readErr m =>
          if updating then readCore fuel updating ib1 rest dest1 offset1 length1
          else .error m
        | .done =>
          if updating then readCore fuel updating ib1 rest dest1 offset1 length1
          else .ok { bytesRead := fromIB, dest := dest1, internalBuffer := ib1, events := rest }
        | .chunk v =>
          if length1 < v.length then
            .ok { bytesRead := fromIB + length1
                  dest := bufSet dest1 (v.take length1) offset1
                  internalBuffer := ib1 ++ v.drop length1
                  events := rest }
          else
            .ok { bytesRead := fromIB + v.length
                  dest := bufSet dest1 v offset1
                  internalBuffer := ib1
                  events := rest }

/-! ## Single-slot promise lock under interleaving
(`lock` / `unlock` / `waitForUnlock`, src/index.ts lines 238-255)

JavaScript runs these methods on one thread, but every `await` is a
scheduler gap: the code between two awaits is atomic, the code across an
await is not.  The phases below are exactly the atomic segments of
`lock()` / `unlock()`:

* `lock()` with an empty slot runs `this.locked && ...` (falsy, no await)
  and the slot assignment in one segment — one atomic step;
* `lock()` with an occupied slot suspends in `waitForUnlock`'s loop;
* a suspended waiter that is woken re-checks the loop condition; finding
  the slot empty it returns from `waitForUnlock`, which only schedules the
  continuation of `lock()` — the slot assignment runs in a *later*
  microtask ("ready" phase);
* that continuation performs the slot assignment unconditionally;
* `unlock()` clears the slot and resolves the promise in one segment. -/

/-- Phase of one task with respect to the lock protocol. -/
inductive TaskPhase
  | idle
  | waiting
  | ready
  | holding
  | released
deriving DecidableEq, Repr

/-- The lock slot (`this.locked`, identified by the installing task) and
the phase of every task. -/
structure LockSystem where
  slot : Option Nat
  tasks : List TaskPhase
deriving DecidableEq, Repr

/-- Scheduler actions: a task entering `lock()`, a waiter's loop re-check
finding the slot empty, a woken waiter's continuation installing itself,
and `unlock()`. -/
inductive LockAction
  | callLock (t : Nat)
  | wakeLoopExit (t : Nat)
  | installHolder (t : Nat)
  | callUnlock (t : Nat)
deriving DecidableEq, Repr

/-- Phase of task `t` (out-of-range tasks are absent and never enabled). -/
def phaseOf (s : LockSystem) (t : Nat) : Option TaskPhase :=
  s.tasks[t]?

/-- Replace the phase of task `t`. -/
def setPhase (s : LockSystem) (t : Nat) (p : TaskPhase) : LockSystem :=
  { s with tasks := s.tasks.set t p }

/-- One atomic scheduler step; `none` when the action is not enabled.

* `callLock t` (line 238-241): with an empty slot the guard
  `this.locked &&` short-circuits and the assignment runs in the same
  segment, so the task installs itself at once; with an occupied slot the
  task suspends in `waitForUnlock`.
* `wakeLoopExit t` (lines 251-255): a waiting task whose awaited promise
  was resolved re-checks `while (this.locked)`; the step is enabled when
  the slot is empty, and only moves the task to `ready` — returning from
  `waitForUnlock` does not yet run the assignment in `lock()`.
* `installHolder t` (line 240): the continuation of `lock()` assigns a
  fresh lock object to the slot unconditionally.
* `callUnlock t` (lines 243-249): a task that completed `lock()` clears
  whatever occupies the slot and resolves it. -/
def lockStep (s : LockSystem) : LockAction → Option LockSystem
  | .callLock t =>
    match phaseOf s t with
    | some .idle =>
      match s.slot with
      | none => some (setPhase { s with slot := some t } t .holding)
      | some _ => some (setPhase s t .waiting)
    | _ => none
  | .wakeLoopExit t =>
    match phaseOf s t, s.slot with
    | some .waiting, none => some (setPhase s t .ready)
    | _, _ => none
  | .installHolder t =>
    match phaseOf s t with
    | some .ready => some (setPhase { s with slot := some t } t .holding)
    | _ => none
  | .callUnlock t =>
    match phaseOf s t with
    | some .holding => some (setPhase { s with slot := none } t .released)
    | _ => none

/-- Run a list of scheduler actions; `none` as soon as one is not
enabled. -/
def lockExec (s : LockSystem) : List LockAction → Option LockSystem
  | [] => some s
  | a :: rest =>
    match lockStep s a with
    | some s1 => lockExec s1 rest
    | none => none

/-- Number of tasks currently holding the lock: tasks that completed
`lock()` and have not run `unlock()`. -/
def holdersCount (s : LockSystem) : Nat :=
  (s.tasks.filter (fun p => p = TaskPhase.holding)).length

/-- Initial system: empty slot, every task idle. -/
def lockInit (n : Nat) : LockSystem :=
  { slot := none, tasks := List.replicate n TaskPhase.idle }

/-- The interleaving realised by the microtask queue when two `lock()`
calls wait on the same holder and the holder releases: task 0 acquires,
tasks 1 and 2 suspend, task 0 releases (waking both), both waiters
re-check the empty slot and exit their loops, then both continuations
install themselves. -/
def doubleAcquireTrace : List LockAction :=
  [.callLock 0, .callLock 1, .callLock 2, .callUnlock 0,
   .wakeLoopExit 1, .wakeLoopExit 2, .installHolder 1, .installHolder 2]

/-! ## Theorems -/

/-- C1: the claim requires that no two concurrent `lock()` calls both hold
the lock slot at the same time.  The `doubleAcquireTrace` interleaving —
realisable on the JavaScript microtask queue — drives the single-slot lock
to a state in which two tasks have both completed `lock()` and neither has
released: two live lock holders at one instant, violating the required
single-holder invariant. -/
theorem lock_two_holders_reachable :
    (lockExec (lockInit 3) doubleAcquireTrace).map holdersCount = some 2 := by
  decide

/-- C8 counterexample: the defaults object of `WebSerialBinding.open`
contains no baud-rate entry, so a call supplying no baud rate is left with
none — not the 115200 default the claim states. -/
theorem mergeOpenOptions_no_baud_default :
    (mergeOpenOptions (bareOptions "webserial://any")).baudRate = none ∧
    (mergeOpenOptions (bareOptions "webserial://any")).baudRate ≠ some 115200 := by
  exact ⟨rfl, by decide⟩

/-- C8 (amended): the effective open configuration is the defaults object
(8 data bits, 1 stop bit, parity "none", no hardware flow control, lock
and hupcl true, xon / xoff / xany false, empty passthrough bags) merged
with the caller options, the caller winning on every field it supplies;
the baud rate and the path have no default and are taken from the caller
options alone. -/
theorem mergeOpenOptions_caller_wins (o : WebSerialOpenOptionsM) :
    (mergeOpenOptions o).path = o.path ∧
    (mergeOpenOptions o).baudRate = o.baudRate ∧
    (mergeOpenOptions o).dataBits = (match o.dataBits with | some v => v | none => 8) ∧
    (mergeOpenOptions o).lock = (match o.lock with | some v => v | none => true) ∧
    (mergeOpenOptions o).stopBits = (match o.stopBits with | some v => v | none => 1) ∧
    (mergeOpenOptions o).parity = (match o.parity with | some v => v | none => "none") ∧
    (mergeOpenOptions o).rtscts = (match o.rtscts with | some v => v | none => false) ∧
    (mergeOpenOptions o).xon = (match o.xon with | some v => v | none => false) ∧
    (mergeOpenOptions o).xoff = (match o.xoff with | some v => v | none => false) ∧
    (mergeOpenOptions o).xany = (match o.xany with | some v => v | none => false) ∧
    (mergeOpenOptions o).hupcl = (match o.hupcl with | some v => v | none => true) ∧
    (mergeOpenOptions o).webSerialOpenOptions
      = (match o.webSerialOpenOptions with | some v => v | none => []) ∧
    (mergeOpenOptions o).webSerialRequestOptions
      = (match o.webSerialRequestOptions with | some v => v | none => []) ∧
    (mergeOpenOptions o).webSerialPort = o.webSerialPort := by
  refine ⟨rfl, rfl, ?_, ?_, ?_, ?_, ?_, ?_, ?_, ?_, ?_, ?_, ?_, rfl⟩ <;>
    simp only [mergeOpenOptions] <;>
    first
      | (cases o.dataBits <;> rfl)
      | (cases o.lock <;> rfl)
      | (cases o.stopBits <;> rfl)
      | (cases o.parity <;> rfl)
      | (cases o.rtscts <;> rfl)
      | (cases o.xon <;> rfl)
      | (cases o.xoff <;> rfl)
      | (cases o.xany <;> rfl)
      | (cases o.hupcl <;> rfl)
      | (cases o.webSerialOpenOptions <;> rfl)
      | (cases o.webSerialRequestOptions <;> rfl)

/-- C9: without the WebSerial capability (`'serial' in navigator` false)
`open` fails with the not-supported error for every option set and device
report, before selecting any port, while `list` never fails and returns the
empty list. -/
theorem open_notSupported_list_empty :
    (∀ (o : WebSerialOpenOptionsM) (report : List DeviceDescriptor),
        webSerialOpen false o report = .error .notSupported) ∧
    (∀ report : List DeviceDescriptor, webSerialList false report = []) := by
  constructor
  · intro o report
    rfl
  · intro report
    rfl

/-- `_close()` never touches the lock slot. -/
theorem closeTransport_locked (env : Env) (st : SessionState) (port : PortState) :
    (closeTransport env st port).session.locked = st.locked := by
  unfold closeTransport closeWriterPhase closeFinishPhase
  cases hR : st.hasReader <;> cases hW : st.hasWriter <;>
    cases env.readerRelease <;> cases env.writerRelease <;> simp [hR, hW]

/-- `_close()` never touches the recorded signal values. -/
theorem closeTransport_signals (env : Env) (st : SessionState) (port : PortState) :
    (closeTransport env st port).session.lastSignalsValues = st.lastSignalsValues := by
  unfold closeTransport closeWriterPhase closeFinishPhase
  cases hR : st.hasReader <;> cases hW : st.hasWriter <;>
    cases env.readerRelease <;> cases env.writerRelease <;> simp [hR, hW]

/-- `_close()` never touches the reconfiguration flag. -/
theorem closeTransport_updating (env : Env) (st : SessionState) (port : PortState) :
    (closeTransport env st port).session.updatingPortSettings = st.updatingPortSettings := by
  unfold closeTransport closeWriterPhase closeFinishPhase
  cases hR : st.hasReader <;> cases hW : st.hasWriter <;>
    cases env.readerRelease <;> cases env.writerRelease <;> simp [hR, hW]

/-- `_open()` never touches the lock slot. -/
theorem openTransport_locked (env : Env) (st : SessionState) (port : PortState) :
    (openTransport env st port).session.locked = st.locked := by
  unfold openTransport
  cases env.portOpenResult <;> simp

/-- `_open()` never touches the recorded signal values. -/
theorem openTransport_signals (env : Env) (st : SessionState) (port : PortState) :
    (openTransport env st port).session.lastSignalsValues = st.lastSignalsValues := by
  unfold openTransport
  cases env.portOpenResult <;> simp

/-- `port.setSignals` never touches the session state at all. -/
theorem setSignalsTransport_session (env : Env) (st : SessionState) (port : PortState)
    (v : SignalsM) : (setSignalsTransport env st port v).session = st := by
  unfold setSignalsTransport
  cases env.setSignalsResult <;> simp

/-- C10: an `update` whose requested baud rate equals the current effective
baud rate performs no reconfiguration: it issues no transport call and
returns with the session and port states exactly as it found them (the
lock slot is taken and released around the no-op). -/
theorem update_same_baud_noop (env : Env) (st : SessionState) (port : PortState) (b : Nat)
    (hb : st.baudRate = some b) (hl : st.locked = false) :
    update env st port b = { result := .ok (), session := st, port := port, trace := [] } := by
  cases st
  simp_all [update]

/-- C5: whenever `update` raises, `unlock()` (line 133) is never reached,
so the session's lock slot is still occupied when the error returns to the
caller; every later operation that waits on the slot finds it held. -/
theorem update_error_lock_held (env : Env) (st : SessionState) (port : PortState)
    (b : Nat) (e : String) (h : (update env st port b).result = .error e) :
    (update env st port b).session.locked = true := by
  simp only [update] at h ⊢
  split at h
  case isTrue hb =>
    split at h
    case h_1 e1 heq =>
      simp_all [closeTransport_locked]
    case h_2 heq =>
      split at h
      case h_1 e2 heq2 =>
        simp_all [openTransport_locked, closeTransport_locked]
      case h_2 heq2 =>
        split at h
        case h_1 v hv =>
          split at h
          case h_1 e3 heq3 =>
            simp_all [setSignalsTransport_session, openTransport_locked, closeTransport_locked]
          case h_2 heq3 =>
            simp_all
        case h_2 hv =>
          simp_all
  case isFalse hb =>
    simp_all

/-- C4: when the transport teardown or setup step of a reconfiguring
`update` raises, the `updatingPortSettings` flag is cleared back to false
and that same error is the one `update` re-raises to its caller. -/
theorem update_teardown_error (env : Env) (st : SessionState) (port : PortState)
    (b : Nat) (e : String)
    (hb : some b ≠ st.baudRate)
    (hfe : firstTeardownSetupError env st.hasReader st.hasWriter = some e) :
    (update env st port b).result = .error e ∧
    (update env st port b).session.updatingPortSettings = false := by
  cases hR : st.hasReader <;> cases hW : st.hasWriter <;>
    cases hrr : env.readerRelease <;> cases hwr : env.writerRelease <;>
      cases hpo : env.portOpenResult <;>
        simp_all [update, closeTransport, closeWriterPhase, closeFinishPhase,
          openTransport, setSignalsTransport, firstTeardownSetupError, errOf]

/-- C3: a successful `update` that changes the baud rate reapplies the
last-recorded output-signal values to the transport after the reopen, so
the transport's output signals after `update` completes equal the values
recorded by the most recent `set()` before the update. -/
theorem update_reapplies_signals (env : Env) (st : SessionState) (port : PortState)
    (b : Nat) (v : SignalsM)
    (hv : st.lastSignalsValues = some v)
    (hb : some b ≠ st.baudRate)
    (hok : (update env st port b).result = .ok ()) :
    (update env st port b).port.outputSignals = some v := by
  cases hR : st.hasReader <;> cases hW : st.hasWriter <;>
    cases hrr : env.readerRelease <;> cases hwr : env.writerRelease <;>
      cases hpo : env.portOpenResult <;> cases hss : env.setSignalsResult <;>
        simp_all [update, closeTransport, closeWriterPhase, closeFinishPhase,
          openTransport, setSignalsTransport]

/-- Witness for C10 at a concrete session: requesting the current baud rate
leaves everything untouched. -/
theorem update_same_baud_noop_witness :
    update { readerRelease := .ok (), writerRelease := .ok ()
             portOpenResult := .ok (), setSignalsResult := .ok () }
        { isOpen := true, baudRate := some 9600, updatingPortSettings := false
          lastSignalsValues := none, internalBuffer := [], hasReader := true
          hasWriter := true, lastWriteCall := false, locked := false }
        { portOpen := true, outputSignals := none, hasReadable := true, hasWritable := true }
        9600
      = { result := .ok ()
          session :=
            { isOpen := true, baudRate := some 9600, updatingPortSettings := false
              lastSignalsValues := none, internalBuffer := [], hasReader := true
              hasWriter := true, lastWriteCall := false, locked := false }
          port := { portOpen := true, outputSignals := none, hasReadable := true
                    hasWritable := true }
          trace := [] } :=
  update_same_baud_noop _ _ _ 9600 rfl rfl

/-- Witness for C5 at a concrete failing update: the reader release throws
and the lock slot stays occupied. -/
theorem update_error_lock_held_witness :
    (update { readerRelease := .error "boom", writerRelease := .ok ()
              portOpenResult := .ok (), setSignalsResult := .ok () }
        { isOpen := true, baudRate := some 9600, updatingPortSettings := false
          lastSignalsValues := none, internalBuffer := [], hasReader := true
          hasWriter := true, lastWriteCall := false, locked := false }
        { portOpen := true, outputSignals := none, hasReadable := true, hasWritable := true }
        115200).session.locked = true :=
  update_error_lock_held _ _ _ 115200 "boom" rfl

/-- Witness for C4 at a concrete failing update: the reader release throws
"boom", update re-raises "boom" and the flag is back to false. -/
theorem update_teardown_error_witness :
    (update { readerRelease := .error "boom", writerRelease := .ok ()
              portOpenResult := .ok (), setSignalsResult := .ok () }
        { isOpen := true, baudRate := some 9600, updatingPortSettings := false
          lastSignalsValues := none, internalBuffer := [], hasReader := true
          hasWriter := true, lastWriteCall := false, locked := false }
        { portOpen := true, outputSignals := none, hasReadable := true, hasWritable := true }
        115200).result = .error "boom" ∧
    (update { readerRelease := .error "boom", writerRelease := .ok ()
              portOpenResult := .ok (), setSignalsResult := .ok () }
        { isOpen := true, baudRate := some 9600, updatingPortSettings := false
          lastSignalsValues := none, internalBuffer := [], hasReader := true
          hasWriter := true, lastWriteCall := false, locked := false }
        { portOpen := true, outputSignals := none, hasReadable := true, hasWritable := true }
        115200).session.updatingPortSettings = false :=
  update_teardown_error _ _ _ 115200 "boom" (by decide) rfl

/-- Witness for C3 at a concrete successful update: the signals recorded by
the last `set()` are back on the transport after the baud change. -/
theorem update_reapplies_signals_witness :
    (update { readerRelease := .ok (), writerRelease := .ok ()
              portOpenResult := .ok (), setSignalsResult := .ok () }
        { isOpen := true, baudRate := some 9600, updatingPortSettings := false
          lastSignalsValues := some { dataTerminalReady := some true
                                      requestToSend := some false
                                      breakSignal := some false }
          internalBuffer := [], hasReader := true, hasWriter := true
          lastWriteCall := false, locked := false }
        { portOpen := true, outputSignals := none, hasReadable := true, hasWritable := true }
        115200).port.outputSignals
      = some { dataTerminalReady := some true, requestToSend := some false
               breakSignal := some false } :=
  update_reapplies_signals _ _ _ 115200 _ rfl (by decide) rfl

/-- Reading the counters table after a store: the stored key reads the
stored value, every other key is unaffected. -/
theorem lookupCounter_setCounter (cs : List (String × Nat)) (k k2 : String) (v : Nat) :
    lookupCounter (setCounter cs k v) k2 = if k = k2 then v else lookupCounter cs k2 := by
  induction cs with
  | nil =>
    by_cases h : k = k2 <;> simp [setCounter, lookupCounter, h]
  | cons hd tl ih =>
    obtain ⟨hk, hv⟩ := hd
    by_cases h1 : hk = k
    · subst h1
      by_cases h2 : hk = k2 <;> simp [setCounter, lookupCounter, h2]
    · by_cases h2 : hk = k2
      · subst h2
        simp [setCounter, lookupCounter, h1]
        rw [if_neg (fun hc => h1 hc.symm)]
      · simp [setCounter, lookupCounter, h1, h2, ih]

/-- Characterisation of the `list()` loop from an arbitrary counters table:
the entry produced for the device at index `i` carries the ordinal given by
the initial counter for its key plus the number of earlier devices in the
report with the same key. -/
theorem runList_get (r : List DeviceDescriptor) :
    ∀ (cs : List (String × Nat)) (i : Nat) (d : DeviceDescriptor), r[i]? = some d →
      (runList cs r).1[i]? =
        some (mkEntry d (lookupCounter cs (descKey d) + countKey (r.take i) (descKey d))) := by
  induction r with
  | nil =>
    intro cs i d hi
    simp at hi
  | cons hd tl ih =>
    intro cs i d hi
    cases i with
    | zero =>
      simp at hi
      subst hi
      simp [runList, getPortInfo, countKey]
    | succ i =>
      simp at hi
      have step := ih (setCounter cs (descKey hd) (lookupCounter cs (descKey hd) + 1)) i d hi
      have hcons : (runList cs (hd :: tl)).1[i + 1]?
          = (runList (setCounter cs (descKey hd) (lookupCounter cs (descKey hd) + 1)) tl).1[i]? := by
        simp [runList, getPortInfo]
      rw [hcons, step, lookupCounter_setCounter]
      by_cases hk : descKey hd = descKey d
      · rw [if_pos hk]
        have hcount : countKey ((hd :: tl).take (i + 1)) (descKey d)
            = countKey (tl.take i) (descKey d) + 1 := by
          simp [countKey, List.filter, hk]
        rw [hcount, hk]
        have harith : lookupCounter cs (descKey d) + 1 + countKey (tl.take i) (descKey d)
            = lookupCounter cs (descKey d) + (countKey (tl.take i) (descKey d) + 1) := by
          omega
        rw [harith]
      · rw [if_neg hk]
        have hcount : countKey ((hd :: tl).take (i + 1)) (descKey d)
            = countKey (tl.take i) (descKey d) := by
          simp [countKey, List.filter, hk]
        rw [hcount]

/-- C6: `list()` is deterministic in the platform's device report: the
VirtualPath produced for the device at index `i` is a function of the
descriptor alone plus the number of earlier same-key devices, so any two
`list()` calls over an unchanged device set in an unchanged report order
produce the identical path for every device. -/
theorem listPorts_path_deterministic (r : List DeviceDescriptor) (i : Nat)
    (d : DeviceDescriptor) (h : r[i]? = some d) :
    (listPorts r)[i]? = some (mkEntry d (countKey (r.take i) (descKey d))) := by
  have h2 := runList_get r [] i d h
  simpa [listPorts, lookupCounter] using h2

/-- Witness for C6: two identical USB descriptors; the second occurrence
gets the deterministic path with ordinal 1. -/
theorem listPorts_path_deterministic_witness :
    (listPorts [⟨[("usbVendorId", some "6790")]⟩, ⟨[("usbVendorId", some "6790")]⟩])[1]?
      = some (mkEntry ⟨[("usbVendorId", some "6790")]⟩ 1) := by
  have h := listPorts_path_deterministic
    [⟨[("usbVendorId", some "6790")]⟩, ⟨[("usbVendorId", some "6790")]⟩] 1
    ⟨[("usbVendorId", some "6790")]⟩ rfl
  rw [h]
  decide

/-- C7: within one `list()` call the ordinals of the devices sharing one
ordinal-free key are dense from zero in report order: the device at index
`i` receives exactly the number of earlier devices with its key. -/
theorem listPorts_ordinals_dense (r : List DeviceDescriptor) (i : Nat)
    (d : DeviceDescriptor) (h : r[i]? = some d) :
    ((listPorts r)[i]?).map PortEntry.ordinal = some (countKey (r.take i) (descKey d)) := by
  have h2 := runList_get r [] i d h
  simp only [lookupCounter, Nat.zero_add] at h2
  rw [listPorts, h2]
  rfl

/-- Witness for C7: with three devices of which the first and third share a
key, the third gets ordinal 1 (second member of its group). -/
theorem listPorts_ordinals_dense_witness :
    ((listPorts [⟨[("usbVendorId", some "1")]⟩, ⟨[]⟩, ⟨[("usbVendorId", some "1")]⟩])[2]?).map
        PortEntry.ordinal = some 1 := by
  have h := listPorts_ordinals_dense
    [⟨[("usbVendorId", some "1")]⟩, ⟨[]⟩, ⟨[("usbVendorId", some "1")]⟩] 2
    ⟨[("usbVendorId", some "1")]⟩ rfl
  rw [h]
  decide

/-- Two consecutive `buffer.set` writes at adjacent offsets equal one write
of the concatenated bytes (used to read off the drain-then-chunk layout of
a single `read`). -/
theorem bufSet_append (dest s1 s2 : List Nat) (off : Nat) (h : off ≤ dest.length) :
    bufSet (bufSet dest s1 off) s2 (off + s1.length) = bufSet dest (s1 ++ s2) off := by
  have h2 : (dest.take off ++ s1).length = off + s1.length := by
    simp [List.length_take]
    omega
  simp only [bufSet]
  rw [List.take_append_eq_append_take, List.drop_append_eq_append_drop]
  rw [List.take_of_length_le (by omega : (dest.take off ++ s1).length ≤ off + s1.length)]
  rw [List.drop_eq_nil_of_le (by omega : (dest.take off ++ s1).length ≤ off + s1.length + s2.length)]
  rw [h2]
  simp [List.drop_drop]
  rw [Nat.add_assoc]

/-- C2: a `read` drains the internal buffer first (oldest first) and, when
the transport chunk exceeds the remaining request, returns exactly the
requested `L` bytes — the drained buffer followed by the chunk head —
appending the excess to the internal buffer's tail; the immediately
following `read` serves up to the stashed remainder from the buffer alone,
leaving the transport events untouched. -/
theorem read_stash_roundtrip (f : Nat) (ib c dest dest2 : List Nat)
    (rest : List ReadEvent) (off L off2 L2 : Nat)
    (h1 : ib.length < L) (h2 : L - ib.length < c.length) (h3 : off + L ≤ dest.length)
    (h4 : L2 ≤ c.length - (L - ib.length)) :
    readCore (f + 1) false ib (ReadEvent.chunk c :: rest) dest off L
      = .ok { bytesRead := L
              dest := bufSet dest (ib ++ c.take (L - ib.length)) off
              internalBuffer := c.drop (L - ib.length)
              events := rest } ∧
    readCore (f + 1) false (c.drop (L - ib.length)) rest dest2 off2 L2
      = .ok { bytesRead := L2
              dest := bufSet dest2 ((c.drop (L - ib.length)).take L2) off2
              internalBuffer := (c.drop (L - ib.length)).drop L2
              events := rest } := by
  constructor
  · by_cases hib : 0 < ib.length
    · have hmin : min L ib.length = ib.length := by omega
      have hg : ¬ (0 < ib.length ∧ L - ib.length = 0) := by omega
      simp only [readCore, hmin, if_pos hib]
      rw [if_neg hg]
      rw [if_pos h2, List.take_length, List.drop_length]
      rw [bufSet_append dest ib (c.take (L - ib.length)) off (by omega)]
      simp
      omega
    · have hib0 : ib = [] := by
        cases ib with
        | nil => rfl
        | cons a l => simp at hib
      subst hib0
      simp only [List.length_nil, Nat.sub_zero] at h2
      simp only [readCore]
      simp [h2]
  · have hstash : 0 < (c.drop (L - ib.length)).length := by
      simp [List.length_drop]
      omega
    have hmin2 : min L2 (c.drop (L - ib.length)).length = L2 := by
      simp [List.length_drop]
      omega
    simp only [readCore, hmin2, if_pos hstash]
    rw [if_pos (show 0 < (c.drop (L - ib.length)).length ∧ L2 - L2 = 0 from
      ⟨hstash, by omega⟩)]

/-- Witness for C2: a buffered byte 1, a transport chunk [2,3,4] against a
request for 2 bytes: the first read yields [1,2] into the destination and
stashes [3,4]; the next read serves [3,4] without consuming any transport
event. -/
theorem read_stash_roundtrip_witness :
    readCore 1 false [1] [ReadEvent.chunk [2, 3, 4]] [0, 0, 0, 0] 1 2
      = .ok { bytesRead := 2, dest := [0, 1, 2, 0], internalBuffer := [3, 4], events := [] } ∧
    readCore 1 false [3, 4] [] [9, 9] 0 2
      = .ok { bytesRead := 2, dest := [3, 4], internalBuffer := [], events := [] } :=
  read_stash_roundtrip 0 [1] [2, 3, 4] [0, 0, 0, 0] [9, 9] [] 1 2 0 2
    (by decide) (by decide) (by decide) (by decide)
